import Mathlib

/-!
Verification development for the GameFrame compositor core
(`HackerOS-Linux-System/GameFrame`). The C sources are shallowly embedded
as executable Lean definitions: the process supervisor and `main` exit-code
logic from `gameframe.c`, the seat/input router from `seat.c`, the output
manager from `output.c`, the idle-inhibition tracker from
`idle_inhibit_v1.c`, and the transient-for view relation from `xdg_shell.c`
and `xwayland.c`.
-/

/- ============================================================
   Process supervisor: wait-status translation
   (`cleanup_primary_client` in gameframe.c)
   ============================================================ -/

/-- POSIX wait-status accessor `WTERMSIG(s) = s & 0x7f` (glibc). -/
def wTermSig (s : Nat) : Nat := s % 128

/-- POSIX wait-status accessor `WEXITSTATUS(s) = (s & 0xff00) >> 8` (glibc). -/
def wExitStatus (s : Nat) : Nat := (s / 256) % 256

/-- POSIX `WIFEXITED(s)`: the low seven bits of the status word are zero. -/
def wIfExited (s : Nat) : Bool := wTermSig s == 0

/-- POSIX `WIFSIGNALED(s)`: glibc computes
`((signed char)(((s & 0x7f) + 1) >> 1)) > 0`, which holds exactly when the
low seven bits are neither `0` (normal exit) nor `0x7f` (stopped). -/
def wIfSignaled (s : Nat) : Bool := s % 128 != 0 && s % 128 != 127

/-- Embedding of `cleanup_primary_client` (gameframe.c): blocking wait for
the child, then translate the wait status: normal exit maps to its exit
status, signal termination maps to `128 + signal` (the shell convention),
and any other wait outcome maps to `0`. -/
def cleanup_primary_client (status : Nat) : Nat :=
  if wIfExited status then wExitStatus status
  else if wIfSignaled status then 128 + wTermSig status
  else 0

/- ============================================================
   Event loop and `main`'s exit-code plumbing (gameframe.c)
   ============================================================ -/

/-- The event sources `main` wires into the wl event loop that can stop it:
the SIGINT/SIGTERM handlers (`handle_signal`) and the client-liveness pipe
(`sigchld_handler`, registered for `WL_EVENT_HANGUP | WL_EVENT_ERROR`). -/
inductive LoopEvent where
  | sigint
  | sigterm
  | pipeHangup
  | pipeError
  deriving DecidableEq, Repr

/-- Loop-relevant server state: whether `wl_display_terminate` has been
requested (the loop stops dispatching) and the `return_app_code` flag. -/
structure LoopState where
  stopped : Bool
  return_app_code : Bool
  deriving DecidableEq, Repr

/-- One event dispatch. `handle_signal` (SIGINT/SIGTERM) only requests
termination; `sigchld_handler` (pipe hangup or error) sets
`server->return_app_code = true` and then requests termination. Once the
loop has been asked to stop, no further events are dispatched. -/
def dispatchEvent (st : LoopState) (e : LoopEvent) : LoopState :=
  if st.stopped then st
  else
    match e with
    | LoopEvent.sigint => { st with stopped := true }
    | LoopEvent.sigterm => { st with stopped := true }
    | LoopEvent.pipeHangup => { stopped := true, return_app_code := true }
    | LoopEvent.pipeError => { stopped := true, return_app_code := true }

/-- State of the loop-relevant flags after `wl_display_run` processes a
sequence of events, starting from the freshly started server
(`return_app_code` is zero-initialized in `main`). -/
def runLoop (events : List LoopEvent) : LoopState :=
  events.foldl dispatchEvent { stopped := false, return_app_code := false }

/-- The failure exits taken by `main` before (or while) spawning the
primary client; every one of them makes `main` return `1`. The order
follows the source: argument parsing, `XDG_RUNTIME_DIR`, display, backend,
`drop_permissions`, renderer, allocator, output layout, scene, compositor,
subcompositor, data-device manager, primary-selection manager, seat,
socket, backend start, missing client argv, and `spawn_primary_client`
failure (pipe, fork, or cloexec failure). -/
inductive SetupError where
  | parseArgs
  | noRuntimeDir
  | display
  | backend
  | dropPermissions
  | renderer
  | allocator
  | outputLayout
  | scene
  | compositor
  | subcompositor
  | dataDevice
  | primarySelection
  | seat
  | socket
  | backendStart
  | noClientArg
  | spawn
  deriving DecidableEq, Repr

/-- Inputs determining `main`'s exit code: the first setup failure if any
(`none` when every setup step succeeded and the client was spawned), the
events the event loop dispatches, and the child's wait-status word (read
by `waitpid` when the child is reaped). -/
structure MainRun where
  setupError : Option SetupError
  events : List LoopEvent
  waitStatus : Nat
  deriving Repr

/-- Whether `main` blocks in `waitpid` after the loop: it reaps the child
only under `if (server.return_app_code)`. -/
def mainWaitsForChild (r : MainRun) : Bool :=
  r.setupError == none && (runLoop r.events).return_app_code

/-- Embedding of `main`'s exit code (gameframe.c): every setup failure
path sets `ret = 1` (directly or via `goto end`) and skips or aborts the
rest; otherwise the loop runs, `app_ret` is the translated child status
when `return_app_code` was set (else `0`), and `main` returns
`ret ? ret : app_ret`. -/
def mainExitCode (r : MainRun) : Nat :=
  match r.setupError with
  | some _ => 1
  | none =>
      if (runLoop r.events).return_app_code then cleanup_primary_client r.waitStatus
      else 0

/- ============================================================
   Privilege drop (`drop_permissions` in gameframe.c)
   ============================================================ -/

/-- Process credentials: real, effective and saved user/group ids. -/
structure PrivEnv where
  ruid : Nat
  euid : Nat
  suid : Nat
  rgid : Nat
  egid : Nat
  sgid : Nat
  deriving DecidableEq, Repr

/-- POSIX `setuid(x)`: a privileged process (`euid == 0`) sets all three
user ids; an unprivileged process may only switch its effective id to its
real or saved id. Returns `0` on success, `-1` on failure. -/
def sysSetuid (e : PrivEnv) (x : Nat) : Int × PrivEnv :=
  if e.euid = 0 then (0, { e with ruid := x, euid := x, suid := x })
  else if x = e.ruid ∨ x = e.suid then (0, { e with euid := x })
  else (-1, e)

/-- POSIX `setgid(x)`: a privileged process (`euid == 0`) sets all three
group ids; an unprivileged process may only switch its effective group id
to its real or saved group id. Returns `0` on success, `-1` on failure. -/
def sysSetgid (e : PrivEnv) (x : Nat) : Int × PrivEnv :=
  if e.euid = 0 then (0, { e with rgid := x, egid := x, sgid := x })
  else if x = e.rgid ∨ x = e.sgid then (0, { e with egid := x })
  else (-1, e)

/-- The final check of `drop_permissions`:
`if (setgid(0) != -1 || setuid(0) != -1) return false;` — both calls are
made left to right with C short-circuiting, and if either succeeds the
function refuses to start because root could be restored. -/
def restoreRootCheck (e : PrivEnv) : Bool × PrivEnv :=
  let r1 := sysSetgid e 0
  if r1.1 ≠ -1 then (false, r1.2)
  else
    let r2 := sysSetuid r1.2 0
    if r2.1 ≠ -1 then (false, r2.2)
    else (true, r2.2)

/-- Embedding of `drop_permissions` (gameframe.c). Running with a real uid
or gid of `0` is allowed outright (only a warning is logged). Otherwise a
setuid/setgid process (real and effective ids differ) drops to its real
ids, gid first, refusing to start if either call fails; finally the
function refuses to start if root can still be restored. -/
def drop_permissions (e : PrivEnv) : Bool × PrivEnv :=
  if e.ruid = 0 ∨ e.rgid = 0 then (true, e)
  else
    if e.ruid ≠ e.euid ∨ e.rgid ≠ e.egid then
      let g := sysSetgid e e.rgid
      if g.1 ≠ 0 then (false, g.2)
      else
        let u := sysSetuid g.2 g.2.ruid
        if u.1 ≠ 0 then (false, u.2)
        else restoreRootCheck u.2
    else restoreRootCheck e

/- ============================================================
   Views and the transient-for relation
   (xdg_shell.c, xwayland.c, view.h)
   ============================================================ -/

/-- An xdg-shell toplevel together with its parent chain
(`wlr_xdg_toplevel.parent`). The numeric id stands for the object's
address, so two distinct toplevels carry distinct ids. The chain is finite
by protocol (no cycles), which the inductive structure reflects. -/
inductive XdgToplevel where
  | root (id : Nat)
  | child (id : Nat) (parent : XdgToplevel)
  deriving DecidableEq, Repr

/-- The address stand-in of an xdg toplevel. -/
def XdgToplevel.addr : XdgToplevel → Nat
  | XdgToplevel.root i => i
  | XdgToplevel.child i _ => i

/-- An xwayland surface together with its parent chain
(`wlr_xwayland_surface.parent`), ids again standing for addresses. -/
inductive XwlSurface where
  | root (id : Nat)
  | child (id : Nat) (parent : XwlSurface)
  deriving DecidableEq, Repr

/-- The address stand-in of an xwayland surface. -/
def XwlSurface.addr : XwlSurface → Nat
  | XwlSurface.root i => i
  | XwlSurface.child i _ => i

/-- The two view kinds of `enum gf_view_type` (view.h). -/
inductive ViewKind where
  | xdgShell
  | xwayland
  deriving DecidableEq, Repr

/-- A `gf_view`: the kind tag together with the kind's native object
(the `gf_xdg_shell_view` holds a `wlr_xdg_toplevel`, the
`gf_xwayland_view` holds a `wlr_xwayland_surface`). -/
inductive View where
  | xdg (t : XdgToplevel)
  | xwl (s : XwlSurface)
  deriving DecidableEq, Repr

/-- The `type` tag of a view (view.h: `view->type`). -/
def View.kind : View → ViewKind
  | View.xdg _ => ViewKind.xdgShell
  | View.xwl _ => ViewKind.xwayland

/-- The loop of the xdg-shell `is_transient_for` (xdg_shell.c):
starting from the child's toplevel, test whether the walked toplevel's
parent is the candidate parent toplevel, then step to the parent; the walk
ends at a toplevel with no parent (`NULL`). -/
def xdgChainReaches (t : XdgToplevel) (p : XdgToplevel) : Bool :=
  match t with
  | XdgToplevel.root _ => false
  | XdgToplevel.child _ q => q == p || xdgChainReaches q p

/-- Embedding of the xdg-shell `is_transient_for` (xdg_shell.c): return
`false` unless the parent view is an xdg-shell view, else walk the child's
`xdg_toplevel->parent` chain looking for the parent's toplevel. -/
def xdg_is_transient_for (child : XdgToplevel) (parent : View) : Bool :=
  match parent with
  | View.xdg p => xdgChainReaches child p
  | View.xwl _ => false

/-- Walk of an xwayland parent chain comparing each parent against an
optional target address; `none` is the stand-in for a comparand that is
not the address of any xwayland surface. -/
def xwlChainReachesAddr (s : XwlSurface) (target : Option Nat) : Bool :=
  match s with
  | XwlSurface.root _ => false
  | XwlSurface.child _ q => some q.addr == target || xwlChainReachesAddr q target

/-- Embedding of the xwayland `is_transient_for` (xwayland.c). The source
guard is `if (parent->type != GAMEFRAME_XDG_SHELL_VIEW) return false;`, so
an xwayland parent is rejected immediately. When the guard passes, the
source casts the xdg-shell parent to `struct gf_xwayland_view` and reads
`xwayland_surface` past the parent's actual layout; the walk body is cut
off in the provided source and is modelled from the spec
(`Modelled from the spec:` walks the parent chain of the child's native
ancestry) with the mismatched read modelled as an address that is not any
xwayland surface, so the walk matches nothing. -/
def xwayland_is_transient_for (child : XwlSurface) (parent : View) : Bool :=
  if parent.kind ≠ ViewKind.xdgShell then false
  else xwlChainReachesAddr child none

/-- Modelled from the spec: the body of `view_is_transient_for` (view.c is
not part of the provided sources; view.h declares it) dispatches to the
child view's `impl->is_transient_for`. A `NULL` child has no native
ancestry, so no parent can appear in its chain. -/
def view_is_transient_for (child : Option View) (parent : View) : Bool :=
  match child with
  | none => false
  | some (View.xdg t) => xdg_is_transient_for t parent
  | some (View.xwl s) => xwayland_is_transient_for s parent

/-- The relation the spec describes for `is_transient_for`: the parent
appears in the parent-chain of the child's native ancestry, stated
uniformly for both view kinds. Written from the spec's words for
comparison with the source embedding. -/
def spec_is_transient_for (child parent : View) : Bool :=
  match child, parent with
  | View.xdg t, View.xdg p => xdgChainReaches t p
  | View.xwl s, View.xwl p => xwlChainReachesAddr s (some p.addr)
  | _, _ => false

/- ============================================================
   Pointer-press focus policy (`press_cursor_button` in seat.c)
   ============================================================ -/

/-- Embedding of the focus-transfer decision of `press_cursor_button`
(seat.c) for a button press: `view` is the hit-test result at the cursor
position (`desktop_view_at`, `NULL` when no view is under the point) and
`current` is `seat_get_focus`. If the hit view is the current focus the
handler returns; otherwise focus moves to the hit view when it is non-NULL
and `view_is_transient_for(current, view)` is false. The function returns
the focused view after the press. -/
def press_cursor_button (current : Option View) (hit : Option View) : Option View :=
  if hit == current then current
  else
    match hit with
    | none => current
    | some v => if !view_is_transient_for current v then some v else current

/- ============================================================
   Global keybinding filter (seat.c)
   ============================================================ -/

/-- The xkb keysym value `XKB_KEY_Escape`. -/
def XKB_KEY_Escape : Nat := 0xff1b

/-- The xkb keysym value `XKB_KEY_XF86Switch_VT_1`. -/
def XKB_KEY_XF86Switch_VT_1 : Nat := 0x1008fe01

/-- The xkb keysym value `XKB_KEY_XF86Switch_VT_12`. -/
def XKB_KEY_XF86Switch_VT_12 : Nat := 0x1008fe0c

/-- The server fields `handle_keybinding` consults, and the two side
effects it can request (a termination request through `server_terminate`
and a VT change through `wlr_session_change_vt`). -/
structure KeyServer where
  allow_vt_switch : Bool
  backend_is_multi : Bool
  has_session : Bool
  deriving DecidableEq, Repr

/-- Result of running `handle_keybinding`: whether the binding consumed
the symbol (its return value), whether `server_terminate` was called, and
the VT requested from `wlr_session_change_vt`, if any. -/
structure KeybindResult where
  handled : Bool
  terminate : Bool
  vtChange : Option Nat
  deriving DecidableEq, Repr

/-- Embedding of `handle_keybinding` (seat.c). Escape terminates and is
consumed. A VT-switch symbol with `allow_vt_switch` set is consumed, and
additionally changes VT `sym - XKB_KEY_XF86Switch_VT_1 + 1` when the
backend is a multi backend and a session exists; the multi/session tests
gate only the VT change, not the `return true`. Anything else falls into
the `else` branch and is not consumed. -/
def handle_keybinding (srv : KeyServer) (sym : Nat) : KeybindResult :=
  if sym = XKB_KEY_Escape then
    { handled := true, terminate := true, vtChange := none }
  else if srv.allow_vt_switch ∧ XKB_KEY_XF86Switch_VT_1 ≤ sym ∧ sym ≤ XKB_KEY_XF86Switch_VT_12 then
    { handled := true, terminate := false,
      vtChange :=
        if srv.backend_is_multi ∧ srv.has_session then some (sym - XKB_KEY_XF86Switch_VT_1 + 1)
        else none }
  else
    { handled := false, terminate := false, vtChange := none }

/-- Outcome of `handle_key_event` for one key event: whether the event was
forwarded to the focused client (`wlr_seat_keyboard_notify_key`), whether a
termination was requested, and any VT change requested. -/
structure KeyEventResult where
  forwarded : Bool
  terminate : Bool
  vtChange : Option Nat
  deriving DecidableEq, Repr

/-- Embedding of `handle_key_event` (seat.c). The translated keycode's
symbol list is scanned only when the Alt modifier is held and the event is
a press; `handled` is assigned by each iteration of the loop, so the last
symbol's result decides (for the common single-symbol case, that symbol's
result). When not handled, the event is forwarded to the focused client. -/
def handle_key_event (srv : KeyServer) (altHeld : Bool) (pressed : Bool) (syms : List Nat) : KeyEventResult :=
  let results := if altHeld ∧ pressed then syms.map (handle_keybinding srv) else []
  let handled := (results.map KeybindResult.handled).getLastD false
  { forwarded := !handled
    terminate := results.any KeybindResult.terminate
    vtChange := (results.filterMap KeybindResult.vtChange).getLast? }

/- ============================================================
   Seat capability derivation (seat.c)
   ============================================================ -/

/-- The derived seat capability set (`WL_SEAT_CAPABILITY_*` bits). -/
structure CapSet where
  keyboard : Bool
  pointer : Bool
  touch : Bool
  deriving DecidableEq, Repr

/-- The cursor image states `update_capabilities` can leave behind:
cleared (`wlr_cursor_unset_image`) or the default xcursor
(`wlr_cursor_set_xcursor` with `DEFAULT_XCURSOR`). -/
inductive CursorImage where
  | cleared
  | default
  deriving DecidableEq, Repr

/-- A keyboard device as the grouping logic sees it: its id (address
stand-in), whether it is a virtual keyboard, and its merge key (keymap and
repeat info; `wlr_keyboard_group_add_keyboard` accepts a keyboard exactly
when these match the group's). -/
structure KbDevice where
  id : Nat
  virtual : Bool
  mergeKey : Nat
  deriving DecidableEq, Repr

/-- A `gf_keyboard_group`: its virtual flag, the merge key shared by its
members, and the member devices. -/
structure KbGroup where
  is_virtual : Bool
  mergeKey : Nat
  devices : List KbDevice
  deriving DecidableEq, Repr

/-- The seat's device bookkeeping (`gf_seat`): keyboard groups, pointer
ids, touch ids, plus the derived capability set last pushed with
`wlr_seat_set_capabilities` and the cursor image last set. -/
structure SeatState where
  keyboard_groups : List KbGroup
  pointers : List Nat
  touch : List Nat
  caps : CapSet
  cursorImage : CursorImage
  deriving DecidableEq, Repr

/-- Embedding of `update_capabilities` (seat.c): the capability set is the
union of keyboard/pointer/touch according to non-emptiness of the three
collections; when the pointer capability is absent the cursor image is
cleared, otherwise the default xcursor is set. -/
def update_capabilities (s : SeatState) : SeatState :=
  let caps : CapSet :=
    { keyboard := !s.keyboard_groups.isEmpty
      pointer := !s.pointers.isEmpty
      touch := !s.touch.isEmpty }
  { s with caps := caps
           cursorImage := if !caps.pointer then CursorImage.cleared else CursorImage.default }

/-- Embedding of `handle_new_pointer` (seat.c): insert the pointer at the
head of `seat->pointers` (`wl_list_insert` at the head) and recompute the
capabilities. -/
def handle_new_pointer (s : SeatState) (id : Nat) : SeatState :=
  update_capabilities { s with pointers := id :: s.pointers }

/-- Embedding of `handle_pointer_destroy` (seat.c): unlink the pointer and
recompute the capabilities. -/
def handle_pointer_destroy (s : SeatState) (id : Nat) : SeatState :=
  update_capabilities { s with pointers := s.pointers.erase id }

/-- Embedding of `handle_new_touch` (seat.c): insert the touch device at
the head of `seat->touch` and recompute the capabilities. -/
def handle_new_touch (s : SeatState) (id : Nat) : SeatState :=
  update_capabilities { s with touch := id :: s.touch }

/-- Embedding of `handle_touch_destroy` (seat.c): unlink the touch device
and recompute the capabilities. -/
def handle_touch_destroy (s : SeatState) (id : Nat) : SeatState :=
  update_capabilities { s with touch := s.touch.erase id }

/-- The body of `gf_keyboard_group_add`'s merge loop: a non-virtual
keyboard joins the first non-virtual group whose
`wlr_keyboard_group_add_keyboard` accepts it (matching merge key). -/
def kbGroupsMerge (groups : List KbGroup) (kb : KbDevice) : Option (List KbGroup) :=
  match groups with
  | [] => none
  | g :: rest =>
      if !g.is_virtual ∧ g.mergeKey = kb.mergeKey then
        some ({ g with devices := kb :: g.devices } :: rest)
      else
        match kbGroupsMerge rest kb with
        | some rest2 => some (g :: rest2)
        | none => none

/-- Embedding of `gf_keyboard_group_add` followed by the
`update_capabilities` call of `handle_new_keyboard` (seat.c): a
non-virtual keyboard merges into an accepting non-virtual group if one
exists; otherwise a fresh group holding only this keyboard is inserted at
the head of `seat->keyboard_groups`. -/
def handle_new_keyboard (s : SeatState) (kb : KbDevice) : SeatState :=
  let groups :=
    if !kb.virtual then
      match kbGroupsMerge s.keyboard_groups kb with
      | some merged => merged
      | none => { is_virtual := kb.virtual, mergeKey := kb.mergeKey, devices := [kb] } :: s.keyboard_groups
    else
      { is_virtual := kb.virtual, mergeKey := kb.mergeKey, devices := [kb] } :: s.keyboard_groups
  update_capabilities { s with keyboard_groups := groups }

/-- Removal of a keyboard device. Modelled from the spec: the device
leaves its keyboard group and the group is destroyed when its last device
is removed (the group teardown itself lives in the wlr keyboard-group
collaborator; `handle_keyboard_destroy` in seat.c contributes the final
`update_capabilities`). -/
def handle_keyboard_remove (s : SeatState) (kbId : Nat) : SeatState :=
  let groups :=
    (s.keyboard_groups.map fun g =>
      { g with devices := g.devices.filter (fun d => d.id ≠ kbId) }).filter
      (fun g => !g.devices.isEmpty)
  update_capabilities { s with keyboard_groups := groups }

/- ============================================================
   Output manager: destroy and promotion (output.c)
   ============================================================ -/

/-- The multi-output modes of `enum gameframe_multi_output_mode`
(server.h). -/
inductive MultiOutputMode where
  | extend
  | last
  deriving DecidableEq, Repr

/-- A `gf_output` as the destroy/promotion logic sees it: its id (address
stand-in), whether its backend output is a nested (wl or x11 windowed)
output, and its enabled flag. -/
structure OutputRec where
  id : Nat
  nested : Bool
  enabled : Bool
  deriving DecidableEq, Repr

/-- The server state touched by `output_destroy` (output.c):
`server->outputs` ordered most-recently-added first (`wl_list_insert` at
the head in `handle_new_output`), the multi-output mode, whether
`server_terminate` was called, and whether `view_position_all` was
triggered to reposition all mapped views. -/
structure OutputServer where
  outputs : List OutputRec
  mode : MultiOutputMode
  terminateRequested : Bool
  repositioned : Bool
  deriving DecidableEq, Repr

/-- Embedding of `output_enable` (output.c) restricted to the record it
promotes: commit the enabled state and re-add the output to the layout. -/
def output_enable (o : OutputRec) : OutputRec :=
  { o with enabled := true }

/-- Embedding of `output_destroy` (output.c): unlink the output from
`server->outputs` and the layout, then — if no outputs remain and the
destroyed output was nested — terminate the server; otherwise, under
`last` mode with outputs remaining, enable the head of the remaining list
(the most recently added output) and reposition all views. The enabled
re-add to the layout also fires the layout-change handler, which calls
`view_position_all`; the source additionally calls it directly. -/
def output_destroy (srv : OutputServer) (oid : Nat) : OutputServer :=
  match srv.outputs.find? (fun o => o.id == oid) with
  | none => srv
  | some o =>
      let remaining := srv.outputs.eraseP (fun q => q.id == oid)
      if remaining.isEmpty ∧ o.nested then
        { srv with outputs := remaining, terminateRequested := true }
      else if srv.mode = MultiOutputMode.last ∧ ¬remaining.isEmpty then
        match remaining with
        | [] => { srv with outputs := remaining }
        | prev :: rest =>
            { srv with outputs := output_enable prev :: rest, repositioned := true }
      else
        { srv with outputs := remaining }

/- ============================================================
   Output configuration apply/test (output.c)
   ============================================================ -/

/-- The collaborator outcomes that determine `output_config_apply`:
whether `wlr_output_configuration_v1_build_state` yields a state array,
whether `wlr_output_swapchain_manager_prepare` accepts it, the results of
`wlr_scene_output_build_state` for each entry, and the result of
`wlr_backend_commit`. -/
structure OutputConfigEnv where
  buildOk : Bool
  prepareOk : Bool
  sceneBuildOk : List Bool
  commitOk : Bool
  deriving DecidableEq, Repr

/-- Outcome of `output_config_apply`: its boolean return value and whether
`wlr_backend_commit` was invoked (the only call that alters backend
state). -/
structure ApplyResult where
  ok : Bool
  committed : Bool
  deriving DecidableEq, Repr

/-- Embedding of `output_config_apply` (output.c). Build the would-be
backend state; on build failure return false. Prepare the swapchains; if
preparation failed or this is a test-only call, return the preparation
result without committing. Otherwise build each scene output state,
failing on the first error, and finally commit the whole backend state,
returning the commit result. -/
def output_config_apply (env : OutputConfigEnv) (testOnly : Bool) : ApplyResult :=
  if !env.buildOk then { ok := false, committed := false }
  else
    let ok := env.prepareOk
    if !ok ∨ testOnly then { ok := ok, committed := false }
    else if env.sceneBuildOk.any (fun b => !b) then { ok := false, committed := false }
    else { ok := env.commitOk, committed := true }

/-- What an output-manager handler reports to the requesting observer:
the wlr-output-management protocol offers
`wlr_output_configuration_v1_send_succeeded` and `_send_failed`. -/
inductive ConfigReport where
  | succeeded
  | failed
  deriving DecidableEq, Repr

/-- Embedding of `handle_output_manager_apply` (output.c): run
`output_config_apply` in non-test mode, then send `succeeded` to the
observer — unconditionally; the computed `ok` is not consulted. -/
def handle_output_manager_apply (env : OutputConfigEnv) : ApplyResult × ConfigReport :=
  (output_config_apply env false, ConfigReport.succeeded)

/-- Embedding of `handle_output_manager_test` (output.c): run
`output_config_apply` in test mode, then send `succeeded` to the
observer — unconditionally; the computed `ok` is not consulted. -/
def handle_output_manager_test (env : OutputConfigEnv) : ApplyResult × ConfigReport :=
  (output_config_apply env true, ConfigReport.succeeded)

/- ============================================================
   Idle inhibition tracker (idle_inhibit_v1.c)
   ============================================================ -/

/-- The state the idle-inhibition tracker maintains:
`server->inhibitors` (token ids, head-inserted) and the inhibited flag
last pushed to the idle-notification collaborator with
`wlr_idle_notifier_v1_set_inhibited`. -/
structure IdleState where
  inhibitors : List Nat
  inhibited : Bool
  deriving DecidableEq, Repr

/-- Embedding of `idle_inhibit_v1_check_active` (idle_inhibit_v1.c):
recompute `inhibited = !wl_list_empty(&server->inhibitors)` and push it. -/
def idle_inhibit_v1_check_active (s : IdleState) : IdleState :=
  { s with inhibited := !s.inhibitors.isEmpty }

/-- Embedding of `handle_idle_inhibitor_v1_new` (idle_inhibit_v1.c):
link the new inhibitor token into `server->inhibitors` and recompute the
inhibited state. -/
def handle_idle_inhibitor_v1_new (s : IdleState) (tok : Nat) : IdleState :=
  idle_inhibit_v1_check_active { s with inhibitors := tok :: s.inhibitors }

/-- Embedding of the inhibitor `handle_destroy` (idle_inhibit_v1.c):
unlink the token, free it, and recompute the inhibited state in the same
handler invocation. -/
def handle_idle_inhibitor_destroy (s : IdleState) (tok : Nat) : IdleState :=
  idle_inhibit_v1_check_active { s with inhibitors := s.inhibitors.erase tok }

/-- The capability/cursor invariant the spec states for the seat: the
pushed capability set is exactly the union of keyboard (non-empty keyboard
group list), pointer (non-empty pointer list) and touch (non-empty touch
list), and the cursor image is cleared exactly when pointer capability is
absent and set to the default exactly when it is present. -/
def capsDerived (s : SeatState) : Prop :=
  s.caps.keyboard = !s.keyboard_groups.isEmpty ∧
  s.caps.pointer = !s.pointers.isEmpty ∧
  s.caps.touch = !s.touch.isEmpty ∧
  s.cursorImage = (if s.pointers.isEmpty then CursorImage.cleared else CursorImage.default)

/- ============================================================
   Theorems
   ============================================================ -/

/-- C8: the inhibited flag pushed to the idle-notification collaborator is
a pure function of token-set membership — after every add and every remove
it equals the non-emptiness of the live token set, adding always leaves it
true, and removing the last token flips it to false within the same
handler invocation. -/
theorem idle_inhibition_set_semantics (s : IdleState) (tok : Nat) :
    (handle_idle_inhibitor_v1_new s tok).inhibited = true ∧
    (handle_idle_inhibitor_v1_new s tok).inhibited
      = !(handle_idle_inhibitor_v1_new s tok).inhibitors.isEmpty ∧
    (handle_idle_inhibitor_destroy s tok).inhibited
      = !(handle_idle_inhibitor_destroy s tok).inhibitors.isEmpty ∧
    (∀ b : Bool, (handle_idle_inhibitor_destroy { inhibitors := [tok], inhibited := b } tok).inhibited = false) := by
  refine ⟨?_, ?_, ?_, ?_⟩
  · simp [handle_idle_inhibitor_v1_new, idle_inhibit_v1_check_active]
  · rfl
  · rfl
  · intro b
    simp [handle_idle_inhibitor_destroy, idle_inhibit_v1_check_active]

/-- C5: the dry-run (test) mode of output_config_apply never commits to
the backend, yet the apply handler reports success to the requesting
observer unconditionally — in particular for a configuration whose backend
commit fails, where output_config_apply itself returned false. -/
theorem output_config_report_divergence (env : OutputConfigEnv) :
    (output_config_apply env true).committed = false ∧
    (handle_output_manager_apply env).2 = ConfigReport.succeeded ∧
    (handle_output_manager_test env).2 = ConfigReport.succeeded ∧
    (handle_output_manager_apply
        { buildOk := true, prepareOk := true, sceneBuildOk := [true], commitOk := false }).1.ok
      = false ∧
    (handle_output_manager_apply
        { buildOk := true, prepareOk := true, sceneBuildOk := [true], commitOk := false }).2
      = ConfigReport.succeeded := by
  refine ⟨?_, rfl, rfl, by decide, rfl⟩
  unfold output_config_apply
  by_cases hb : env.buildOk <;> by_cases hp : env.prepareOk <;> simp [hb, hp]

/-- C6: the transient-for walk is correct for the xdg-shell kind, but the
xwayland implementation returns false for every xwayland parent: its guard
tests for the xdg-shell type tag (and would then read the parent through a
mismatched xwayland cast), so a parent lying on the child's native
parent-chain is not found. The concrete failing input is an xwayland child
whose direct parent is the queried xwayland view. -/
theorem xwayland_transient_guard_bug :
    (∀ t : XdgToplevel, ∀ p : XdgToplevel,
        view_is_transient_for (some (View.xdg t)) (View.xdg p)
          = spec_is_transient_for (View.xdg t) (View.xdg p)) ∧
    (∀ child : XwlSurface, ∀ p : XwlSurface,
        xwayland_is_transient_for child (View.xwl p) = false) ∧
    view_is_transient_for (some (View.xwl (XwlSurface.child 2 (XwlSurface.root 1))))
        (View.xwl (XwlSurface.root 1))
      = false ∧
    spec_is_transient_for (View.xwl (XwlSurface.child 2 (XwlSurface.root 1)))
        (View.xwl (XwlSurface.root 1))
      = true := by
  refine ⟨fun t p => rfl, ?_, by decide, by decide⟩
  intro child p
  unfold xwayland_is_transient_for
  simp [View.kind]

/-- C1: the server exit code is derived from the supervised client — a
normal exit with status N (status word 256*N, N < 256) yields server exit
code N, termination by signal S yields 128+S, any other wait outcome
yields 0, and a spawn failure (pipe or fork) makes main return 1; when the
loop set return_app_code, main returns the translated child status. -/
theorem exit_code_mapping (r : MainRun) (N S s : Nat) :
    (N < 256 → cleanup_primary_client (256 * N) = N) ∧
    (0 < S → S < 127 → cleanup_primary_client S = 128 + S) ∧
    (wIfExited s = false → wIfSignaled s = false → cleanup_primary_client s = 0) ∧
    (r.setupError = some SetupError.spawn → mainExitCode r = 1) ∧
    (r.setupError = none → (runLoop r.events).return_app_code = true →
        mainExitCode r = cleanup_primary_client r.waitStatus) := by
  refine ⟨?_, ?_, ?_, ?_, ?_⟩
  · intro hN
    have h1 : wTermSig (256 * N) = 0 := by
      unfold wTermSig
      omega
    have h2 : wExitStatus (256 * N) = N := by
      unfold wExitStatus
      rw [Nat.mul_div_cancel_left _ (by norm_num : 0 < 256)]
      omega
    unfold cleanup_primary_client wIfExited
    rw [h1, h2]
    simp
  · intro h1 h2
    have he : wIfExited S = false := by
      unfold wIfExited wTermSig
      simp
      omega
    have hs : wIfSignaled S = true := by
      unfold wIfSignaled
      simp
      omega
    have ht : wTermSig S = S := by
      unfold wTermSig
      omega
    unfold cleanup_primary_client
    rw [he, hs, ht]
    simp
  · intro he hs
    unfold cleanup_primary_client
    rw [he, hs]
    simp
  · intro h
    unfold mainExitCode
    rw [h]
  · intro h hr
    unfold mainExitCode
    rw [h, hr]
    simp

/-- Closed instance of the theorem for C1: a child exiting with status 5
yields 5, a child killed by signal 9 yields 137, a stop status yields 0, a
spawn failure yields 1, and a pipe-hangup run propagates the child's
status. -/
theorem exit_code_mapping_witness :
    cleanup_primary_client (256 * 5) = 5 ∧
    cleanup_primary_client 9 = 128 + 9 ∧
    cleanup_primary_client 127 = 0 ∧
    mainExitCode { setupError := some SetupError.spawn, events := [], waitStatus := 0 } = 1 ∧
    mainExitCode { setupError := none, events := [LoopEvent.pipeHangup], waitStatus := 256 * 5 } = 5 := by
  have h1 := (exit_code_mapping { setupError := some SetupError.spawn, events := [], waitStatus := 0 } 5 9 127).1 (by norm_num)
  have h2 := (exit_code_mapping { setupError := some SetupError.spawn, events := [], waitStatus := 0 } 5 9 127).2.1 (by norm_num) (by norm_num)
  have h3 := (exit_code_mapping { setupError := some SetupError.spawn, events := [], waitStatus := 0 } 5 9 127).2.2.1 (by decide) (by decide)
  have h4 := (exit_code_mapping { setupError := some SetupError.spawn, events := [], waitStatus := 0 } 5 9 127).2.2.2.1 rfl
  have h5 := (exit_code_mapping { setupError := none, events := [LoopEvent.pipeHangup], waitStatus := 256 * 5 } 5 9 127).2.2.2.2 rfl (by decide)
  exact ⟨h1, h2, h3, h4, h1 ▸ h5⟩

/-- Helper: folding the dispatcher over events that are not liveness-pipe
events never sets return_app_code. -/
theorem runLoop_no_pipe_aux (evs : List LoopEvent) (st : LoopState)
    (h : ∀ e ∈ evs, e ≠ LoopEvent.pipeHangup ∧ e ≠ LoopEvent.pipeError)
    (h0 : st.return_app_code = false) :
    (evs.foldl dispatchEvent st).return_app_code = false := by
  induction evs generalizing st with
  | nil => simpa using h0
  | cons e rest ih =>
      have he := h e (List.mem_cons_self e rest)
      have hrest : ∀ x ∈ rest, x ≠ LoopEvent.pipeHangup ∧ x ≠ LoopEvent.pipeError :=
        fun x hx => h x (List.mem_cons_of_mem e hx)
      apply ih _ hrest
      unfold dispatchEvent
      by_cases hs : st.stopped
      · simpa [hs] using h0
      · cases e with
        | sigint => simp [hs, h0]
        | sigterm => simp [hs, h0]
        | pipeHangup => exact absurd rfl he.1
        | pipeError => exact absurd rfl he.2

/-- C10: the child's status is collected and propagated only when the
liveness pipe reported hangup or error — if the event loop stops for any
other reason (for example SIGINT or SIGTERM), return_app_code stays false,
main never blocks in waitpid, and, absent a setup error, the server exits
with code 0. -/
theorem reap_only_on_pipe_event (r : MainRun)
    (h : ∀ e ∈ r.events, e ≠ LoopEvent.pipeHangup ∧ e ≠ LoopEvent.pipeError) :
    (runLoop r.events).return_app_code = false ∧
    mainWaitsForChild r = false ∧
    (r.setupError = none → mainExitCode r = 0) := by
  have hrac : (runLoop r.events).return_app_code = false :=
    runLoop_no_pipe_aux r.events _ h rfl
  refine ⟨hrac, ?_, ?_⟩
  · unfold mainWaitsForChild
    rw [hrac]
    simp
  · intro hn
    unfold mainExitCode
    rw [hn, hrac]
    simp

/-- Closed instance of the theorem for C10: a SIGINT-terminated run does
not wait for the child and exits 0. -/
theorem reap_only_on_pipe_event_witness :
    mainWaitsForChild { setupError := none, events := [LoopEvent.sigint, LoopEvent.sigterm], waitStatus := 9 } = false ∧
    mainExitCode { setupError := none, events := [LoopEvent.sigint, LoopEvent.sigterm], waitStatus := 9 } = 0 := by
  have h := reap_only_on_pipe_event
    { setupError := none, events := [LoopEvent.sigint, LoopEvent.sigterm], waitStatus := 9 }
    (by decide)
  exact ⟨h.2.1, h.2.2 rfl⟩

/-- C2 counterexample: with the toplevel P focused and its transient child
D (a dialog parented to P) under the cursor, a button press transfers
focus to D — the claim that clicking a transient child of the focused view
never changes the focused view is false on this input. -/
theorem transient_child_click_moves_focus :
    press_cursor_button (some (View.xdg (XdgToplevel.root 1)))
        (some (View.xdg (XdgToplevel.child 2 (XdgToplevel.root 1))))
      = some (View.xdg (XdgToplevel.child 2 (XdgToplevel.root 1))) ∧
    spec_is_transient_for (View.xdg (XdgToplevel.child 2 (XdgToplevel.root 1)))
        (View.xdg (XdgToplevel.root 1))
      = true ∧
    some (View.xdg (XdgToplevel.child 2 (XdgToplevel.root 1)))
      ≠ some (View.xdg (XdgToplevel.root 1)) := by
  refine ⟨by decide, by decide, by decide⟩

/-- C2 amended: a button press keeps at most one view focused (the focus
is a single optional view), and focus transfers to the hit view V exactly
when V is non-null, V is not the current focus, and the current focus is
not transient for V (V does not appear in the current focus's parent
chain); in particular a press on the transient parent of the focused view
leaves focus unchanged, while a press that hits nothing changes nothing. -/
theorem press_focus_transfer_characterization (current : Option View) (hit : Option View) (v : View) :
    (press_cursor_button current none = current) ∧
    (press_cursor_button current current = current) ∧
    (hit = some v → view_is_transient_for current v = true →
        press_cursor_button current hit = current) ∧
    (hit = some v → hit ≠ current → view_is_transient_for current v = false →
        press_cursor_button current hit = some v) := by
  refine ⟨?_, ?_, ?_, ?_⟩
  · unfold press_cursor_button
    cases current <;> simp
  · unfold press_cursor_button
    simp
  · intro hhit htr
    subst hhit
    unfold press_cursor_button
    by_cases hc : some v = current
    · simp [hc]
    · simp [hc, htr]
  · intro hhit hne htr
    subst hhit
    unfold press_cursor_button
    have hc : (some v == current) = false := by
      simpa using hne
    simp [hc, htr]

/-- Closed instance of the theorem for C2: a press on the transient parent
P while its dialog D holds focus leaves focus on D, and a press on an
unrelated view transfers focus. -/
theorem press_focus_transfer_characterization_witness :
    press_cursor_button (some (View.xdg (XdgToplevel.child 2 (XdgToplevel.root 1))))
        (some (View.xdg (XdgToplevel.root 1)))
      = some (View.xdg (XdgToplevel.child 2 (XdgToplevel.root 1))) ∧
    press_cursor_button (some (View.xdg (XdgToplevel.child 2 (XdgToplevel.root 1))))
        (some (View.xdg (XdgToplevel.root 3)))
      = some (View.xdg (XdgToplevel.root 3)) := by
  constructor
  · exact (press_focus_transfer_characterization
      (some (View.xdg (XdgToplevel.child 2 (XdgToplevel.root 1))))
      (some (View.xdg (XdgToplevel.root 1)))
      (View.xdg (XdgToplevel.root 1))).2.2.1 rfl (by decide)
  · exact (press_focus_transfer_characterization
      (some (View.xdg (XdgToplevel.child 2 (XdgToplevel.root 1))))
      (some (View.xdg (XdgToplevel.root 3)))
      (View.xdg (XdgToplevel.root 3))).2.2.2 rfl (by decide) (by decide)

/-- C3 counterexample: with VT switching permitted but a backend that is
not a multi backend (no multiple-session support), an Alt-pressed
XF86Switch_VT_1 key event is still consumed (not forwarded to the client)
— the claim that VT symbols are consumed only when the backend supports
multiple sessions is false on this input. -/
theorem vt_switch_consumed_without_multi_session :
    (handle_key_event
        { allow_vt_switch := true, backend_is_multi := false, has_session := false }
        true true [XKB_KEY_XF86Switch_VT_1]).forwarded
      = false ∧
    ({ allow_vt_switch := true, backend_is_multi := false, has_session := false } : KeyServer).backend_is_multi
      = false ∧
    XKB_KEY_XF86Switch_VT_1 ≤ XKB_KEY_XF86Switch_VT_1 ∧
    XKB_KEY_XF86Switch_VT_1 ≤ XKB_KEY_XF86Switch_VT_12 := by
  refine ⟨by decide, rfl, le_refl _, by decide⟩

/-- C3 amended: for a single-symbol key event, the global keybinding
filter consumes the event (does not forward it) exactly when the Alt
modifier is held, the event is a press, and the symbol is Escape or — with
VT switching permitted by configuration — a VT-switch symbol 1-12; Alt +
Escape always requests termination and is never forwarded; a VT change is
actually issued only when the backend is a multi backend and a session
exists (those checks gate the VT change, not consumption); with VT
switching disabled by configuration, a VT-switch event is forwarded. -/
theorem alt_keybinding_consumption (srv : KeyServer) (sym : Nat) (altHeld pressed : Bool) :
    ((handle_key_event srv altHeld pressed [sym]).forwarded = false ↔
        altHeld = true ∧ pressed = true ∧
          (sym = XKB_KEY_Escape ∨
            srv.allow_vt_switch = true ∧ XKB_KEY_XF86Switch_VT_1 ≤ sym ∧ sym ≤ XKB_KEY_XF86Switch_VT_12)) ∧
    ((handle_key_event srv altHeld pressed [sym]).terminate = true ↔
        altHeld = true ∧ pressed = true ∧ sym = XKB_KEY_Escape) ∧
    ((handle_key_event srv altHeld pressed [sym]).vtChange ≠ none →
        srv.backend_is_multi = true ∧ srv.has_session = true) ∧
    (srv.allow_vt_switch = false → sym ≠ XKB_KEY_Escape →
        (handle_key_event srv altHeld pressed [sym]).forwarded = true) := by
  cases altHeld with
  | false =>
      refine ⟨?_, ?_, ?_, ?_⟩ <;>
        simp [handle_key_event]
  | true =>
      cases pressed with
      | false =>
          refine ⟨?_, ?_, ?_, ?_⟩ <;>
            simp [handle_key_event]
      | true =>
          have hk : handle_key_event srv true true [sym]
              = { forwarded := !(handle_keybinding srv sym).handled,
                  terminate := (handle_keybinding srv sym).terminate,
                  vtChange := (handle_keybinding srv sym).vtChange } := by
            unfold handle_key_event
            simp [List.getLastD]
            cases hv : (handle_keybinding srv sym).vtChange <;>
              simp [List.findSome?, hv]
          rw [hk]
          unfold handle_keybinding
          by_cases hesc : sym = XKB_KEY_Escape


          · simp [hesc]
          · by_cases hvt : srv.allow_vt_switch = true ∧ XKB_KEY_XF86Switch_VT_1 ≤ sym ∧ sym ≤ XKB_KEY_XF86Switch_VT_12
            · rcases hvt with ⟨hv1, hv2, hv3⟩
              have hvt3 : srv.allow_vt_switch ∧ XKB_KEY_XF86Switch_VT_1 ≤ sym ∧ sym ≤ XKB_KEY_XF86Switch_VT_12 :=
                ⟨by simp [hv1], hv2, hv3⟩
              by_cases hm : srv.backend_is_multi = true ∧ srv.has_session = true
              · have hm3 : srv.backend_is_multi ∧ srv.has_session := ⟨by simp [hm.1], by simp [hm.2]⟩
                simp [hesc, hvt3, hm3, hv1, hv2, hv3]
              · have hm3 : ¬(srv.backend_is_multi ∧ srv.has_session) := by
                  intro hc
                  exact hm ⟨hc.1, hc.2⟩
                refine ⟨?_, ?_, ?_, ?_⟩ <;>
                  simp [hesc, hvt3, hm3, hv1, hv2, hv3]
            · have hvt3 : ¬(srv.allow_vt_switch ∧ XKB_KEY_XF86Switch_VT_1 ≤ sym ∧ sym ≤ XKB_KEY_XF86Switch_VT_12) := by
                intro hc
                exact hvt ⟨hc.1, hc.2.1, hc.2.2⟩
              refine ⟨?_, ?_, ?_, ?_⟩ <;>
                simp [hesc, hvt3]

/-- Closed instance of the theorem for C3: Alt + Escape is consumed and
requests termination; a VT_1 press with VT switching disabled is
forwarded. -/
theorem alt_keybinding_consumption_witness :
    (handle_key_event
        { allow_vt_switch := false, backend_is_multi := true, has_session := true }
        true true [XKB_KEY_Escape]).forwarded
      = false ∧
    (handle_key_event
        { allow_vt_switch := false, backend_is_multi := true, has_session := true }
        true true [XKB_KEY_Escape]).terminate
      = true ∧
    (handle_key_event
        { allow_vt_switch := false, backend_is_multi := true, has_session := true }
        true true [XKB_KEY_XF86Switch_VT_1]).forwarded
      = true := by
  refine ⟨?_, ?_, ?_⟩
  · exact (alt_keybinding_consumption
      { allow_vt_switch := false, backend_is_multi := true, has_session := true }
      XKB_KEY_Escape true true).1.mpr ⟨rfl, rfl, Or.inl rfl⟩
  · exact (alt_keybinding_consumption
      { allow_vt_switch := false, backend_is_multi := true, has_session := true }
      XKB_KEY_Escape true true).2.1.mpr ⟨rfl, rfl, rfl⟩
  · exact (alt_keybinding_consumption
      { allow_vt_switch := false, backend_is_multi := true, has_session := true }
      XKB_KEY_XF86Switch_VT_1 true true).2.2.2 rfl (by decide)

/-- C9 counterexample: a process running as plain root (all ids 0) — the
prime case of elevated privileges with no drop path — passes
drop_permissions (only a warning is logged), so startup proceeds and the
spawned client runs privileged; the claim that such startup is refused
with exit code 1 is false on this input. -/
theorem root_run_is_allowed :
    (drop_permissions { ruid := 0, euid := 0, suid := 0, rgid := 0, egid := 0, sgid := 0 }).1 = true ∧
    (drop_permissions { ruid := 0, euid := 0, suid := 0, rgid := 0, egid := 0, sgid := 0 }).2.euid = 0 := by
  refine ⟨by decide, by decide⟩

/-- Helper: a failed setgid leaves the credentials unchanged. -/
theorem sysSetgid_fail (x : PrivEnv) (y : Nat) (h : (sysSetgid x y).1 = -1) :
    (sysSetgid x y).2 = x := by
  unfold sysSetgid at h ⊢
  split_ifs at h ⊢ <;> simp_all

/-- Helper: a failed setuid leaves the credentials unchanged. -/
theorem sysSetuid_fail (x : PrivEnv) (y : Nat) (h : (sysSetuid x y).1 = -1) :
    (sysSetuid x y).2 = x := by
  unfold sysSetuid at h ⊢
  split_ifs at h ⊢ <;> simp_all

/-- Helper: setgid to the current real gid always succeeds and fixes the
effective gid to the real gid, leaving ids other than the group ids
unchanged. -/
theorem sysSetgid_to_rgid (x : PrivEnv) :
    (sysSetgid x x.rgid).1 = 0 ∧
    (sysSetgid x x.rgid).2.ruid = x.ruid ∧
    (sysSetgid x x.rgid).2.euid = x.euid ∧
    (sysSetgid x x.rgid).2.suid = x.suid ∧
    (sysSetgid x x.rgid).2.rgid = x.rgid ∧
    (sysSetgid x x.rgid).2.egid = x.rgid := by
  unfold sysSetgid
  split_ifs with h1 h2 <;> simp_all

/-- Helper: setuid to the current real uid always succeeds and fixes the
effective uid to the real uid, leaving the group ids unchanged. -/
theorem sysSetuid_to_ruid (x : PrivEnv) :
    (sysSetuid x x.ruid).1 = 0 ∧
    (sysSetuid x x.ruid).2.ruid = x.ruid ∧
    (sysSetuid x x.ruid).2.euid = x.ruid ∧
    (sysSetuid x x.ruid).2.rgid = x.rgid ∧
    (sysSetuid x x.ruid).2.egid = x.egid ∧
    (sysSetuid x x.ruid).2.sgid = x.sgid := by
  unfold sysSetuid
  split_ifs with h1 h2 <;> simp_all

/-- Helper: when the final restore-root check lets startup proceed, it has
not changed the credentials and both root-restoring calls fail on them. -/
theorem restoreRootCheck_spec (x : PrivEnv) (h : (restoreRootCheck x).1 = true) :
    (restoreRootCheck x).2 = x ∧ (sysSetgid x 0).1 = -1 ∧ (sysSetuid x 0).1 = -1 := by
  simp only [restoreRootCheck] at h ⊢
  by_cases h1 : (sysSetgid x 0).1 ≠ -1
  · rw [if_pos h1] at h
    simp at h
  · push_neg at h1
    rw [if_neg (by simp [h1])] at h ⊢
    have he1 : (sysSetgid x 0).2 = x := sysSetgid_fail x 0 h1
    rw [he1] at h ⊢
    by_cases h2 : (sysSetuid x 0).1 ≠ -1
    · rw [if_pos h2] at h
      simp at h
    · push_neg at h2
      rw [if_neg (by simp [h2])] at h ⊢
      exact ⟨sysSetuid_fail x 0 h2, h1, h2⟩

/-- C9 amended: running with real uid or gid 0 is permitted outright (with
a warning); for any other invocation, whenever drop_permissions lets
startup proceed the process has fully dropped privileges — effective ids
equal the (unchanged) real ids and neither root uid nor root gid can be
restored — and whenever it refuses, main exits with code 1 before spawning
the client. -/
theorem drop_permissions_guarantee (e : PrivEnv) (r : MainRun) :
    (e.ruid ≠ 0 → e.rgid ≠ 0 → (drop_permissions e).1 = true →
        (drop_permissions e).2.euid = e.ruid ∧
        (drop_permissions e).2.egid = e.rgid ∧
        (drop_permissions e).2.ruid = e.ruid ∧
        (drop_permissions e).2.rgid = e.rgid ∧
        (sysSetuid (drop_permissions e).2 0).1 = -1 ∧
        (sysSetgid (drop_permissions e).2 0).1 = -1) ∧
    (r.setupError = some SetupError.dropPermissions → mainExitCode r = 1) := by
  constructor
  · intro hu hg hok
    by_cases hmis : e.ruid ≠ e.euid ∨ e.rgid ≠ e.egid
    · have hg1 := sysSetgid_to_rgid e
      have hu1 := sysSetuid_to_ruid (sysSetgid e e.rgid).2
      have hdp : drop_permissions e
          = restoreRootCheck (sysSetuid (sysSetgid e e.rgid).2 ((sysSetgid e e.rgid).2.ruid)).2 := by
        simp only [drop_permissions]
        rw [if_neg (by simp [hu, hg])]
        rw [if_pos hmis]
        rw [if_neg (by simp [hg1.1])]
        rw [if_neg (by simp [hu1.1])]
      rw [hdp] at hok ⊢
      have hr := restoreRootCheck_spec _ hok
      rw [hr.1]
      rw [hr.1] at hr
      refine ⟨?_, ?_, ?_, ?_, hr.2.2, hr.2.1⟩
      · rw [hu1.2.2.1, hg1.2.1]
      · rw [hu1.2.2.2.2.1, hg1.2.2.2.2.2]
      · rw [hu1.2.1, hg1.2.1]
      · rw [hu1.2.2.2.1, hg1.2.2.2.2.1]
    · push_neg at hmis
      obtain ⟨hue, hge⟩ := hmis
      have hdp : drop_permissions e = restoreRootCheck e := by
        simp only [drop_permissions]
        rw [if_neg (by simp [hu, hg])]
        rw [if_neg (by simp [hue, hge])]
      rw [hdp] at hok ⊢
      have hr := restoreRootCheck_spec _ hok
      rw [hr.1]
      rw [hr.1] at hr
      exact ⟨hue.symm, hge.symm, rfl, rfl, hr.2.2, hr.2.1⟩
  · intro h
    unfold mainExitCode
    rw [h]

/-- Closed instance of the theorem for C9: a setuid-root invocation by an
unprivileged user that passes drop_permissions ends up fully dropped, and
a drop_permissions failure exits 1. -/
theorem drop_permissions_guarantee_witness :
    (drop_permissions { ruid := 1000, euid := 0, suid := 0, rgid := 100, egid := 0, sgid := 0 }).2.euid = 1000 ∧
    mainExitCode { setupError := some SetupError.dropPermissions, events := [], waitStatus := 0 } = 1 := by
  have h := drop_permissions_guarantee
    { ruid := 1000, euid := 0, suid := 0, rgid := 100, egid := 0, sgid := 0 }
    { setupError := some SetupError.dropPermissions, events := [], waitStatus := 0 }
  exact ⟨(h.1 (by decide) (by decide) (by decide)).1, h.2 rfl⟩

/-- Helper: searching a list whose prefix has no matching id finds the
middle element. -/
theorem find_id_middle (pre post : List OutputRec) (o : OutputRec)
    (hpre : ∀ q ∈ pre, q.id ≠ o.id) :
    (pre ++ o :: post).find? (fun q => q.id == o.id) = some o := by
  induction pre with
  | nil => simp [List.find?]
  | cons a rest ih =>
      have ha : a.id ≠ o.id := hpre a (List.mem_cons_self a rest)
      have hrest : ∀ q ∈ rest, q.id ≠ o.id := fun q hq => hpre q (List.mem_cons_of_mem a hq)
      have hbeq : (a.id == o.id) = false := by simpa using ha
      simp only [List.cons_append, List.find?, hbeq]
      exact ih hrest

/-- Helper: erasing by a predicate that rejects the whole prefix removes
exactly the middle element. -/
theorem eraseP_id_middle (pre post : List OutputRec) (o : OutputRec)
    (hpre : ∀ q ∈ pre, q.id ≠ o.id) :
    (pre ++ o :: post).eraseP (fun q => q.id == o.id) = pre ++ post := by
  induction pre with
  | nil => simp [List.eraseP_cons]
  | cons a rest ih =>
      have ha : a.id ≠ o.id := hpre a (List.mem_cons_self a rest)
      have hrest : ∀ q ∈ rest, q.id ≠ o.id := fun q hq => hpre q (List.mem_cons_of_mem a hq)
      have hbeq : (a.id == o.id) = false := by simpa using ha
      simp only [List.cons_append, List.eraseP_cons, hbeq]
      simp [ih hrest]

/-- C4: destroying an output removes it from the server's output list;
when no outputs remain and the destroyed output was nested, the server is
terminated; otherwise, under last mode with outputs remaining, the head of
the remaining list — the most recently added remaining output — is enabled
and a reposition of all mapped views is triggered; under extend mode (with
outputs remaining or a non-nested output destroyed) nothing further
happens. -/
theorem output_destroy_spec (pre post : List OutputRec) (o : OutputRec) (mode : MultiOutputMode)
    (hpre : ∀ q ∈ pre, q.id ≠ o.id) :
    (pre ++ post = [] → o.nested = true →
        output_destroy { outputs := pre ++ o :: post, mode := mode, terminateRequested := false, repositioned := false } o.id
          = { outputs := [], mode := mode, terminateRequested := true, repositioned := false }) ∧
    (pre ++ post = [] → o.nested = false →
        output_destroy { outputs := pre ++ o :: post, mode := mode, terminateRequested := false, repositioned := false } o.id
          = { outputs := [], mode := mode, terminateRequested := false, repositioned := false }) ∧
    (∀ p rest, pre ++ post = p :: rest → mode = MultiOutputMode.last →
        output_destroy { outputs := pre ++ o :: post, mode := mode, terminateRequested := false, repositioned := false } o.id
          = { outputs := output_enable p :: rest, mode := mode, terminateRequested := false, repositioned := true }) ∧
    (mode = MultiOutputMode.extend →
        (pre ++ post ≠ [] ∨ o.nested = false) →
        output_destroy { outputs := pre ++ o :: post, mode := mode, terminateRequested := false, repositioned := false } o.id
          = { outputs := pre ++ post, mode := mode, terminateRequested := false, repositioned := false }) := by
  have hfind := find_id_middle pre post o hpre
  have herase := eraseP_id_middle pre post o hpre
  refine ⟨?_, ?_, ?_, ?_⟩
  · intro hemp hnest
    unfold output_destroy
    simp only [hfind]
    rw [herase, hemp]
    simp [hnest]
  · intro hemp hnest
    unfold output_destroy
    simp only [hfind]
    rw [herase, hemp]
    cases mode <;> simp [hnest]
  · intro p rest hrem hmode
    unfold output_destroy
    simp only [hfind]
    rw [herase, hrem, hmode]
    have hne : ¬((p :: rest).isEmpty = true ∧ o.nested = true) := by
      simp [List.isEmpty]
    rw [if_neg hne]
    rw [if_pos ⟨rfl, by simp [List.isEmpty]⟩]
  · intro hmode hcond
    unfold output_destroy
    simp only [hfind]
    rw [herase, hmode]
    have hne : ¬((pre ++ post).isEmpty = true ∧ o.nested = true) := by
      rcases hcond with hc | hc
      · simp [List.isEmpty_iff, hc]
      · simp [hc]
    rw [if_neg hne]
    have hne2 : ¬(MultiOutputMode.extend = MultiOutputMode.last ∧ ¬(pre ++ post).isEmpty = true) := by
      intro hcl
      exact absurd hcl.1 (by simp)
    rw [if_neg hne2]

/-- Closed instance of the theorem for C4: with outputs C (newest), B, A
under last mode, destroying C enables B and repositions; destroying the
sole remaining nested output terminates the server. -/
theorem output_destroy_spec_witness :
    output_destroy
        { outputs := [{ id := 3, nested := false, enabled := true },
                      { id := 2, nested := false, enabled := false },
                      { id := 1, nested := false, enabled := false }],
          mode := MultiOutputMode.last, terminateRequested := false, repositioned := false } 3
      = { outputs := [{ id := 2, nested := false, enabled := true },
                      { id := 1, nested := false, enabled := false }],
          mode := MultiOutputMode.last, terminateRequested := false, repositioned := true } ∧
    output_destroy
        { outputs := [{ id := 7, nested := true, enabled := true }],
          mode := MultiOutputMode.last, terminateRequested := false, repositioned := false } 7
      = { outputs := [], mode := MultiOutputMode.last, terminateRequested := true, repositioned := false } := by
  constructor
  · have h := (output_destroy_spec []
      [{ id := 2, nested := false, enabled := false }, { id := 1, nested := false, enabled := false }]
      { id := 3, nested := false, enabled := true } MultiOutputMode.last (by simp)).2.2.1
      { id := 2, nested := false, enabled := false }
      [{ id := 1, nested := false, enabled := false }] rfl rfl
    simpa [output_enable] using h
  · have h := (output_destroy_spec [] [] { id := 7, nested := true, enabled := true }
      MultiOutputMode.last (by simp)).1 rfl rfl
    simpa using h

/-- Helper: update_capabilities always establishes the derived-capability
invariant. -/
theorem capsDerived_update_capabilities (s : SeatState) : capsDerived (update_capabilities s) := by
  unfold capsDerived update_capabilities
  refine ⟨rfl, rfl, rfl, ?_⟩
  cases h : s.pointers.isEmpty <;> simp [h]

/-- Helper: removing a keyboard id that occurs in no group leaves the
group list unchanged. -/
theorem kb_remove_fresh (gs : List KbGroup) (kbId : Nat)
    (hne : ∀ g ∈ gs, g.devices ≠ [])
    (hfresh : ∀ g ∈ gs, ∀ d ∈ g.devices, d.id ≠ kbId) :
    ((gs.map fun g => { g with devices := g.devices.filter (fun d => d.id ≠ kbId) }).filter
        (fun g => !g.devices.isEmpty))
      = gs := by
  induction gs with
  | nil => rfl
  | cons g rest ih =>
      have hgdev : g.devices.filter (fun d => d.id ≠ kbId) = g.devices := by
        apply List.filter_eq_self.mpr
        intro d hd
        exact decide_eq_true (hfresh g (List.mem_cons_self g rest) d hd)
      have hgne : g.devices ≠ [] := hne g (List.mem_cons_self g rest)
      have hrest := ih (fun q hq => hne q (List.mem_cons_of_mem g hq))
        (fun q hq => hfresh q (List.mem_cons_of_mem g hq))
      simp only [List.map_cons, List.filter_cons, hgdev]
      rw [if_pos (by simpa [List.isEmpty_iff] using hgne)]
      rw [hrest]

/-- Helper: after a fresh keyboard merged into an accepting group, removing
it restores the original group list. -/
theorem kb_remove_after_merge (gs : List KbGroup) (kb : KbDevice) (merged : List KbGroup)
    (hm : kbGroupsMerge gs kb = some merged)
    (hne : ∀ g ∈ gs, g.devices ≠ [])
    (hfresh : ∀ g ∈ gs, ∀ d ∈ g.devices, d.id ≠ kb.id) :
    ((merged.map fun g => { g with devices := g.devices.filter (fun d => d.id ≠ kb.id) }).filter
        (fun g => !g.devices.isEmpty))
      = gs := by
  induction gs generalizing merged with
  | nil => simp [kbGroupsMerge] at hm
  | cons g rest ih =>
      have hgne : g.devices ≠ [] := hne g (List.mem_cons_self g rest)
      have hgfresh : ∀ d ∈ g.devices, d.id ≠ kb.id := hfresh g (List.mem_cons_self g rest)
      have hrne : ∀ q ∈ rest, q.devices ≠ [] := fun q hq => hne q (List.mem_cons_of_mem g hq)
      have hrfresh : ∀ q ∈ rest, ∀ d ∈ q.devices, d.id ≠ kb.id :=
        fun q hq => hfresh q (List.mem_cons_of_mem g hq)
      have hgdev : g.devices.filter (fun d => d.id ≠ kb.id) = g.devices := by
        apply List.filter_eq_self.mpr
        intro d hd
        exact decide_eq_true (hgfresh d hd)
      unfold kbGroupsMerge at hm
      by_cases hacc : !g.is_virtual ∧ g.mergeKey = kb.mergeKey
      · rw [if_pos hacc] at hm
        have hmerged : merged = { g with devices := kb :: g.devices } :: rest := by
          exact (Option.some.injEq _ _).mp hm.symm
        subst hmerged
        have hkbdev : (kb :: g.devices).filter (fun d => d.id ≠ kb.id) = g.devices := by
          rw [List.filter_cons]
          rw [if_neg (by simp)]
          exact hgdev
        simp only [List.map_cons, List.filter_cons, hkbdev]
        rw [if_pos (by simpa [List.isEmpty_iff] using hgne)]
        rw [kb_remove_fresh rest kb.id hrne hrfresh]
      · rw [if_neg hacc] at hm
        cases hrec : kbGroupsMerge rest kb with
        | none =>
            rw [hrec] at hm
            simp at hm
        | some rest2 =>
            rw [hrec] at hm
            have hmerged : merged = g :: rest2 := by
              exact (Option.some.injEq _ _).mp hm.symm
            subst hmerged
            simp only [List.map_cons, List.filter_cons, hgdev]
            rw [if_pos (by simpa [List.isEmpty_iff] using hgne)]
            rw [ih rest2 hrec hrne hrfresh]

/-- Helper: update_capabilities only reads the device collections, so
pre-set capability and cursor fields do not affect it. -/
theorem update_capabilities_overwrite (s : SeatState) (c : CapSet) (i : CursorImage) :
    update_capabilities { s with caps := c, cursorImage := i } = update_capabilities s := rfl

/-- C7: after every input-device add or removal the pushed capability set
is exactly the union of keyboard/pointer/touch derived from collection
non-emptiness, with the cursor image cleared exactly when pointer
capability is absent; and adding then immediately removing the same device
(pointer, touch, or a fresh keyboard) restores the seat state — in
particular the capability set — to its pre-add value, whatever other
devices are present. -/
theorem seat_capability_derivation (s : SeatState) (id : Nat) (kb : KbDevice) :
    capsDerived (handle_new_pointer s id) ∧
    capsDerived (handle_pointer_destroy s id) ∧
    capsDerived (handle_new_touch s id) ∧
    capsDerived (handle_touch_destroy s id) ∧
    capsDerived (handle_new_keyboard s kb) ∧
    capsDerived (handle_keyboard_remove s id) ∧
    (update_capabilities s = s → handle_pointer_destroy (handle_new_pointer s id) id = s) ∧
    (update_capabilities s = s → handle_touch_destroy (handle_new_touch s id) id = s) ∧
    (update_capabilities s = s →
        (∀ g ∈ s.keyboard_groups, g.devices ≠ []) →
        (∀ g ∈ s.keyboard_groups, ∀ d ∈ g.devices, d.id ≠ kb.id) →
        handle_keyboard_remove (handle_new_keyboard s kb) kb.id = s) := by
  refine ⟨capsDerived_update_capabilities _, capsDerived_update_capabilities _,
    capsDerived_update_capabilities _, capsDerived_update_capabilities _,
    capsDerived_update_capabilities _, capsDerived_update_capabilities _, ?_, ?_, ?_⟩
  · intro h
    have hstep : handle_pointer_destroy (handle_new_pointer s id) id = update_capabilities s := by
      unfold handle_pointer_destroy handle_new_pointer
      rw [show (update_capabilities { s with pointers := id :: s.pointers }).pointers
            = id :: s.pointers from rfl]
      rw [List.erase_cons_head]
      rfl
    rw [hstep, h]
  · intro h
    have hstep : handle_touch_destroy (handle_new_touch s id) id = update_capabilities s := by
      unfold handle_touch_destroy handle_new_touch
      rw [show (update_capabilities { s with touch := id :: s.touch }).touch
            = id :: s.touch from rfl]
      rw [List.erase_cons_head]
      rfl
    rw [hstep, h]
  · intro h hne hfresh
    have hover : ∀ G : List KbGroup,
        ((G.map fun g => { g with devices := g.devices.filter (fun d => d.id ≠ kb.id) }).filter
            (fun g => !g.devices.isEmpty)) = s.keyboard_groups →
        handle_keyboard_remove (update_capabilities { s with keyboard_groups := G }) kb.id = s := by
      intro G hG
      unfold handle_keyboard_remove
      rw [show (update_capabilities { s with keyboard_groups := G }).keyboard_groups = G from rfl]
      rw [hG]
      exact h
    have hnewg : ∀ b : Bool,
        ((({ is_virtual := b, mergeKey := kb.mergeKey, devices := [kb] } : KbGroup) :: s.keyboard_groups).map
            (fun g => { g with devices := g.devices.filter (fun d => d.id ≠ kb.id) })).filter
            (fun g => !g.devices.isEmpty)
          = s.keyboard_groups := by
      intro b
      have hk : (([kb] : List KbDevice).filter (fun d => d.id ≠ kb.id)) = [] := by simp
      simp only [List.map_cons, List.filter_cons, hk]
      rw [if_neg (by simp)]
      exact kb_remove_fresh s.keyboard_groups kb.id hne hfresh
    unfold handle_new_keyboard
    cases hv : kb.virtual with
    | true =>
        exact hover _ (hnewg true)
    | false =>
        cases hm : kbGroupsMerge s.keyboard_groups kb with
        | some merged =>
            exact hover merged (kb_remove_after_merge s.keyboard_groups kb merged hm hne hfresh)
        | none =>
            exact hover _ (hnewg false)

/-- Closed instance of the theorem for C7: starting from a seat holding
one touch device (derived capabilities pushed), adding a pointer and then
removing it restores the exact pre-add state, and the intermediate state
has derived capabilities. -/
theorem seat_capability_derivation_witness :
    capsDerived (handle_new_pointer
      { keyboard_groups := [], pointers := [], touch := [4],
        caps := { keyboard := false, pointer := false, touch := true },
        cursorImage := CursorImage.cleared } 7) ∧
    handle_pointer_destroy (handle_new_pointer
      { keyboard_groups := [], pointers := [], touch := [4],
        caps := { keyboard := false, pointer := false, touch := true },
        cursorImage := CursorImage.cleared } 7) 7
      = { keyboard_groups := [], pointers := [], touch := [4],
          caps := { keyboard := false, pointer := false, touch := true },
          cursorImage := CursorImage.cleared } := by
  have h := seat_capability_derivation
    { keyboard_groups := [], pointers := [], touch := [4],
      caps := { keyboard := false, pointer := false, touch := true },
      cursorImage := CursorImage.cleared } 7
    { id := 7, virtual := false, mergeKey := 0 }
  exact ⟨h.1, h.2.2.2.2.2.2.1 (by decide)⟩
